import Mathlib

/-!
Verification of the campaign-analysis pipeline (src/2.py) against its
natural-language specification.

Shallow embedding conventions:
* Dates are modelled post-parse as `Option Int` (day ordinals); `none` is the
  null marker `NaT` produced by `pd.to_datetime(..., errors='coerce')`.
* Impression counts are `Int` (pandas int64 columns); ratio arithmetic such as
  `sla_threshold/100 * booked` is carried out in `ℚ` (exact arithmetic in place
  of float64).
* `pandas` division of integer sums (used by the per-dimension fill rate) is
  modelled by `PFloat`, which distinguishes finite values from `inf`/`-inf`/`NaN`,
  matching `x/0 = inf` (x>0), `0/0 = NaN` semantics of float64 division.
-/

/-- `PAGE_CAPACITY = 1500000` (src/2.py line 15). -/
def PAGE_CAPACITY : Int := 1500000

/-- `sla_threshold = 90` (src/2.py line 16), used as `sla_threshold/100` in ℚ. -/
def sla_threshold : ℚ := 90

/-- One parsed input row of the uploaded CSV. Dates are the result of the
date-normalization pass (`none` = `NaT`). -/
structure RawRow where
  leadID : String
  lineItemID : String
  page : String
  property : String
  booked : Int
  delivered : Int
  goalStart : Option Int
  goalEnd : Option Int
  created : Option Int
deriving DecidableEq, Repr

/-- Pandas `>` on possibly-null datetimes: any comparison involving `NaT`
is `False` (src/2.py line 57, `df['Created Time'] > df['Goal Start Date']`). -/
def dtGt : Option Int → Option Int → Bool
  | some a, some b => decide (a > b)
  | _, _ => false

/-- The GroupKey of the overbooking aggregation:
(Page, Property, Goal Start Date, Goal End Date) (src/2.py line 42). -/
def groupKey (r : RawRow) : String × String × Option Int × Option Int :=
  (r.page, r.property, r.goalStart, r.goalEnd)

/-- `df.groupby([...])['Booked Impressions'].sum()` evaluated at one key:
the sum of `Booked Impressions` over the rows sharing that GroupKey. -/
def groupBookedSum (rows : List RawRow) (k : String × String × Option Int × Option Int) : Int :=
  ((rows.filter (fun r => groupKey r = k)).map (fun r => r.booked)).sum

/-- One row of the flagged table produced by src/2.py lines 41–58.

After the merge at lines 48–49 with `suffixes=('', '_grouped')`, the
unsuffixed column `Overbooking` is the LEFT dataframe's column (set to
`False` for every row at line 41), while the group aggregate computed at
line 45 arrives under the new name `Overbooking_grouped`.  `groupby`
drops rows whose key contains `NaT` (dropna default), so such rows get a
null `Overbooking_grouped` from the left merge. -/
structure FlaggedRow where
  row : RawRow
  overbooking : Bool
  overbookingGrouped : Option Bool
  underdelivery : Bool
  slaBreach : Bool
deriving DecidableEq, Repr

/-- Flag computation for one row of `df` (src/2.py lines 41–58), given the
whole table (the overbooking aggregate is over all rows). -/
def flagRow (rows : List RawRow) (r : RawRow) : FlaggedRow where
  row := r
  overbooking := false
  overbookingGrouped :=
    if r.goalStart.isSome ∧ r.goalEnd.isSome then
      some (decide (groupBookedSum rows (groupKey r) > PAGE_CAPACITY))
    else
      none
  underdelivery := decide (r.delivered < r.booked)
  slaBreach :=
    decide ((r.delivered : ℚ) < sla_threshold / 100 * (r.booked : ℚ)) ||
      dtGt r.created r.goalStart

/-- The flagged table: src/2.py lines 41–58 applied to the whole upload.
The left merge with unique right keys preserves the row order and count. -/
def addFlags (rows : List RawRow) : List FlaggedRow :=
  rows.map (flagRow rows)

/-- `total_booked` (src/2.py line 61). -/
def totalBooked (rows : List RawRow) : Int :=
  (rows.map (fun r => r.booked)).sum

/-- `total_delivered` (src/2.py line 62). -/
def totalDelivered (rows : List RawRow) : Int :=
  (rows.map (fun r => r.delivered)).sum

/-- `fill_rate = (total_delivered / total_booked * 100) if total_booked > 0 else 0`
(src/2.py line 63). -/
def fill_rate (rows : List RawRow) : ℚ :=
  if totalBooked rows > 0 then
    (totalDelivered rows : ℚ) / (totalBooked rows : ℚ) * 100
  else 0

/-- The spec's overbooking example rows: same GroupKey, booked 900000 and
700000 (capacity 1500000). -/
def exRow1 : RawRow :=
  { leadID := "L001", lineItemID := "LI001", page := "Homepage",
    property := "Website A", booked := 900000, delivered := 850000,
    goalStart := some 100, goalEnd := some 130, created := some 90 }

def exRow2 : RawRow :=
  { leadID := "L002", lineItemID := "LI002", page := "Homepage",
    property := "Website A", booked := 700000, delivered := 650000,
    goalStart := some 100, goalEnd := some 130, created := some 95 }

def exampleRows : List RawRow := [exRow1, exRow2]

/-- C1: the program's own comments (lines 40–48: "Add Overbooking Flag",
"Check overbooking per group", "Merge back to main df") intend the displayed
`Overbooking` column to carry the per-group flag, but the merge suffixes
`('', '_grouped')` keep the all-`False` left column under the displayed name:
on the spec's own example (two rows, one GroupKey, booked 900000 + 700000 =
1600000 > 1500000) every displayed `Overbooking` is `false` even though the
group sum exceeds capacity — and the correctly computed flag sits in the
unused `Overbooking_grouped` column. -/
theorem overbooking_flag_is_always_false_despite_group_over_capacity :
    groupBookedSum exampleRows (groupKey exRow1) = 1600000 ∧
    groupBookedSum exampleRows (groupKey exRow1) > PAGE_CAPACITY ∧
    (∀ fr ∈ addFlags exampleRows, fr.overbooking = false) ∧
    (∀ fr ∈ addFlags exampleRows, fr.overbookingGrouped = some true) := by
  refine ⟨by decide, by decide, ?_, ?_⟩ <;> · intro fr h; fin_cases h <;> decide

/-- C5: all rows sharing a GroupKey carry the same `Overbooking` value in the
flagged table.  (In the code this holds because the displayed column is
uniformly `False`; see C1.) -/
theorem overbooking_uniform_per_group (rows : List RawRow)
    (f₁ f₂ : FlaggedRow) (h₁ : f₁ ∈ addFlags rows) (h₂ : f₂ ∈ addFlags rows)
    (_ : groupKey f₁.row = groupKey f₂.row) :
    f₁.overbooking = f₂.overbooking := by
  obtain ⟨r₁, -, rfl⟩ := List.mem_map.mp h₁
  obtain ⟨r₂, -, rfl⟩ := List.mem_map.mp h₂
  rfl

theorem overbooking_uniform_per_group_witness :
    (flagRow exampleRows exRow1).overbooking = (flagRow exampleRows exRow2).overbooking :=
  overbooking_uniform_per_group exampleRows _ _
    (List.mem_map.mpr ⟨exRow1, by decide, rfl⟩)
    (List.mem_map.mpr ⟨exRow2, by decide, rfl⟩)
    (by decide)

/-- C3: for every row, independently of the rest of the table, the
`Underdelivery` flag is true iff `delivered_impressions < booked_impressions`
(src/2.py line 52). -/
theorem underdelivery_iff (rows : List RawRow) (fr : FlaggedRow)
    (h : fr ∈ addFlags rows) :
    fr.underdelivery = true ↔ fr.row.delivered < fr.row.booked := by
  obtain ⟨r, -, rfl⟩ := List.mem_map.mp h
  simp [flagRow]

theorem underdelivery_iff_witness :
    (flagRow exampleRows exRow1).underdelivery = true ↔
      exRow1.delivered < exRow1.booked :=
  underdelivery_iff exampleRows _ (List.mem_map.mpr ⟨exRow1, by decide, rfl⟩)

/-- C2: for every row whose dates are both present, `SLA_Breach` is true iff
`delivered < (sla_threshold/100) * booked` OR `created_time > goal_start_date`
(src/2.py lines 55–58); either disjunct alone triggers the flag. -/
theorem sla_breach_iff (rows : List RawRow) (fr : FlaggedRow)
    (h : fr ∈ addFlags rows) (c s : Int)
    (hc : fr.row.created = some c) (hs : fr.row.goalStart = some s) :
    fr.slaBreach = true ↔
      ((fr.row.delivered : ℚ) < sla_threshold / 100 * (fr.row.booked : ℚ) ∨ c > s) := by
  obtain ⟨r, -, rfl⟩ := List.mem_map.mp h
  simp only [flagRow] at hc hs ⊢
  rw [hc, hs]
  simp [dtGt]

theorem sla_breach_iff_witness :
    (flagRow exampleRows exRow1).slaBreach = true ↔
      ((exRow1.delivered : ℚ) < sla_threshold / 100 * (exRow1.booked : ℚ) ∨
        (90 : Int) > 100) :=
  sla_breach_iff exampleRows _ (List.mem_map.mpr ⟨exRow1, by decide, rfl⟩)
    90 100 rfl rfl

/-- C6: the global fill rate equals `100 * sum(delivered) / sum(booked)` and is
0 (not a division error) when the booked sum is 0 (src/2.py lines 61–63);
stated for tables with a non-negative booked sum (the data model's counts are
non-negative). -/
theorem fill_rate_spec (rows : List RawRow) (h : 0 ≤ totalBooked rows) :
    (totalBooked rows = 0 → fill_rate rows = 0) ∧
    (totalBooked rows ≠ 0 →
      fill_rate rows = 100 * (totalDelivered rows : ℚ) / (totalBooked rows : ℚ)) := by
  constructor
  · intro hz
    simp [fill_rate, hz]
  · intro hnz
    have hpos : totalBooked rows > 0 := lt_of_le_of_ne h (Ne.symm hnz)
    simp only [fill_rate, if_pos hpos]
    ring

theorem fill_rate_spec_witness :
    (totalBooked exampleRows = 0 → fill_rate exampleRows = 0) ∧
    (totalBooked exampleRows ≠ 0 →
      fill_rate exampleRows =
        100 * (totalDelivered exampleRows : ℚ) / (totalBooked exampleRows : ℚ)) :=
  fill_rate_spec exampleRows (by decide)

/-- A row with a zero booking and a positive delivery. -/
def zeroBookedRow : RawRow :=
  { leadID := "L009", lineItemID := "LI009", page := "Homepage",
    property := "Website A", booked := 0, delivered := 5,
    goalStart := some 100, goalEnd := some 130, created := some 90 }

/-- C7 counterexample: for the row with `booked = 0, delivered = 5` the code's
`Underdelivery` flag is `false` (since `5 < 0` is false) although
`delivered ≠ 0`, refuting "the flag is false iff delivered is also 0". -/
theorem underdelivery_zero_booked_counterexample :
    ¬ ((flagRow [zeroBookedRow] zeroBookedRow).underdelivery = false ↔
        zeroBookedRow.delivered = 0) := by
  decide

/-- C7 amended: for every row with `booked_impressions = 0` and a non-negative
`delivered_impressions`, the `Underdelivery` flag is `false` — both when
`delivered = 0` and when `delivered > 0` — with no exception path
(src/2.py line 52). -/
theorem underdelivery_zero_booked (rows : List RawRow) (fr : FlaggedRow)
    (h : fr ∈ addFlags rows) (hb : fr.row.booked = 0)
    (hd : 0 ≤ fr.row.delivered) :
    fr.underdelivery = false := by
  obtain ⟨r, -, rfl⟩ := List.mem_map.mp h
  simp only [flagRow] at hb hd ⊢
  simp [hb, not_lt.mpr hd]

theorem underdelivery_zero_booked_witness :
    (flagRow [zeroBookedRow] zeroBookedRow).underdelivery = false :=
  underdelivery_zero_booked [zeroBookedRow] _
    (List.mem_map.mpr ⟨zeroBookedRow, by decide, rfl⟩) (by decide) (by decide)

/-- C8: when `created_time` or `goal_start_date` is the null marker, the
lateness comparison evaluates to `false` (pandas `NaT` comparisons), so the
row can be flagged `SLA_Breach` only via the delivery-shortfall clause
(src/2.py lines 27–38 coerce failures to `NaT`; lines 55–58 compare). -/
theorem sla_breach_missing_dates (rows : List RawRow) (fr : FlaggedRow)
    (h : fr ∈ addFlags rows)
    (hn : fr.row.created = none ∨ fr.row.goalStart = none) :
    dtGt fr.row.created fr.row.goalStart = false ∧
    (fr.slaBreach = true ↔
      (fr.row.delivered : ℚ) < sla_threshold / 100 * (fr.row.booked : ℚ)) := by
  obtain ⟨r, -, rfl⟩ := List.mem_map.mp h
  simp only [flagRow] at hn ⊢
  have hfalse : dtGt r.created r.goalStart = false := by
    rcases hn with hn | hn <;> rw [hn]
    · cases r.goalStart <;> rfl
    · cases r.created <;> rfl
  refine ⟨hfalse, ?_⟩
  simp [hfalse]

/-- A row whose `Created Time` failed to parse. -/
def natRow : RawRow :=
  { leadID := "L010", lineItemID := "LI010", page := "Article",
    property := "Website B", booked := 100, delivered := 95,
    goalStart := some 100, goalEnd := some 130, created := none }

theorem sla_breach_missing_dates_witness :
    dtGt natRow.created natRow.goalStart = false ∧
    ((flagRow [natRow] natRow).slaBreach = true ↔
      (natRow.delivered : ℚ) < sla_threshold / 100 * (natRow.booked : ℚ)) :=
  sla_breach_missing_dates [natRow] _
    (List.mem_map.mpr ⟨natRow, by decide, rfl⟩) (Or.inl rfl)

/-- Float64 values arising from pandas division of integer sums:
`d/b` is finite for `b ≠ 0`, `+inf` for `d > 0, b = 0`, `-inf` for
`d < 0, b = 0`, and `NaN` for `0/0`. -/
inductive PFloat where
  | val (q : ℚ)
  | posInf
  | negInf
  | nan
deriving DecidableEq, Repr

/-- Pandas (numpy) division of two integer sums, as a `PFloat`. -/
def pandasDiv (d b : Int) : PFloat :=
  if b ≠ 0 then .val ((d : ℚ) / (b : ℚ))
  else if 0 < d then .posInf
  else if d < 0 then .negInf
  else .nan

/-- `.round(2)`: round to two decimal places (ties are not exercised by the
claims, so the exact tie-breaking convention of float64 is immaterial). -/
def round2 (q : ℚ) : ℚ := (round (q * 100) : ℚ) / 100

/-- `(delivered_sum / booked_sum * 100).round(2)` (src/2.py lines 161 and 221):
the division is UNGUARDED, so a zero booked sum propagates `inf`/`NaN`
through `* 100` and `.round(2)`. -/
def pfFillRate (d b : Int) : PFloat :=
  match pandasDiv d b with
  | .val q => .val (round2 (q * 100))
  | x => x

/-- Mean of a boolean column (`.agg('mean')` on a bool series). -/
def boolMean (bs : List Bool) : ℚ := (bs.countP id : ℚ) / (bs.length : ℚ)

/-- One output row of the per-dimension rollup (`page_metrics` /
`property_metrics`, src/2.py lines 151–173 and 211–233): sums, the non-null
`Lead ID` count (lead ids are modelled as always present, so this is the
group's row count), the three flag means converted to percentages and
rounded, and the group fill rate. -/
structure RollupRow where
  dim : String
  bookedSum : Int
  deliveredSum : Int
  campaignCount : Nat
  overbookingRate : ℚ
  underdeliveryRate : ℚ
  slaBreachRate : ℚ
  fillRate : PFloat
deriving DecidableEq, Repr

/-- The rows of the flagged table falling in the group of dimension value `p`. -/
def groupRowsBy (f : FlaggedRow → String) (rows : List FlaggedRow) (p : String) :
    List FlaggedRow :=
  rows.filter (fun r => f r = p)

/-- The aggregate row of one group (src/2.py lines 151–173 / 211–233). -/
def rollupRow (f : FlaggedRow → String) (rows : List FlaggedRow) (p : String) :
    RollupRow :=
  let g := groupRowsBy f rows p
  { dim := p
    bookedSum := (g.map (fun r => r.row.booked)).sum
    deliveredSum := (g.map (fun r => r.row.delivered)).sum
    campaignCount := g.length
    overbookingRate := round2 (boolMean (g.map (fun r => r.overbooking)) * 100)
    underdeliveryRate := round2 (boolMean (g.map (fun r => r.underdelivery)) * 100)
    slaBreachRate := round2 (boolMean (g.map (fun r => r.slaBreach)) * 100)
    fillRate := pfFillRate (g.map (fun r => r.row.delivered)).sum
      (g.map (fun r => r.row.booked)).sum }

/-- `df.groupby(d).agg(...)`: one aggregate row per distinct value of the
dimension (group order is not modelled). -/
def rollupBy (f : FlaggedRow → String) (rows : List FlaggedRow) : List RollupRow :=
  ((rows.map f).dedup).map (rollupRow f rows)

/-- `page_metrics` (src/2.py lines 151–173). -/
def page_metrics (rows : List FlaggedRow) : List RollupRow :=
  rollupBy (fun r => r.row.page) rows

/-- `property_metrics` (src/2.py lines 211–233). -/
def property_metrics (rows : List FlaggedRow) : List RollupRow :=
  rollupBy (fun r => r.row.property) rows

/-- C4 counterexample: a single-row table with `booked = 0, delivered = 5`
yields a page rollup row whose fill rate is `+inf` — not 0 and not `NaN`,
refuting the claim that a zero booked sum produces an explicitly defined
0-or-NaN fill rate. -/
theorem rollup_zero_booked_fill_rate_counterexample :
    ∃ g ∈ page_metrics (addFlags [zeroBookedRow]),
      g.bookedSum = 0 ∧ g.fillRate = PFloat.posInf ∧
      g.fillRate ≠ PFloat.val 0 ∧ g.fillRate ≠ PFloat.nan := by
  decide

/-- C4 amended: for each dimension (instantiate `f` with the Page or the
Property projection), the rollup has exactly one row per distinct dimension
value carrying the group's booked and delivered sums, its row count, each
flag's true-fraction as a rounded percentage, and the UNGUARDED fill rate
`delivered_sum / booked_sum * 100` rounded to 2 decimals — which is finite
iff the booked sum is non-zero, `+inf` when the booked sum is 0 with a
positive delivered sum, and `NaN` when both sums are 0. -/
theorem rollup_spec (f : FlaggedRow → String) (rows : List FlaggedRow) :
    (rollupBy f rows).map RollupRow.dim = (rows.map f).dedup ∧
    ∀ g ∈ rollupBy f rows,
      g.bookedSum = ((groupRowsBy f rows g.dim).map (fun r => r.row.booked)).sum ∧
      g.deliveredSum = ((groupRowsBy f rows g.dim).map (fun r => r.row.delivered)).sum ∧
      g.campaignCount = (groupRowsBy f rows g.dim).length ∧
      g.overbookingRate =
        round2 (boolMean ((groupRowsBy f rows g.dim).map (fun r => r.overbooking)) * 100) ∧
      g.underdeliveryRate =
        round2 (boolMean ((groupRowsBy f rows g.dim).map (fun r => r.underdelivery)) * 100) ∧
      g.slaBreachRate =
        round2 (boolMean ((groupRowsBy f rows g.dim).map (fun r => r.slaBreach)) * 100) ∧
      (g.bookedSum ≠ 0 →
        g.fillRate = .val (round2 ((g.deliveredSum : ℚ) / (g.bookedSum : ℚ) * 100))) ∧
      (g.bookedSum = 0 → 0 < g.deliveredSum → g.fillRate = .posInf) ∧
      (g.bookedSum = 0 → g.deliveredSum = 0 → g.fillRate = .nan) := by
  constructor
  · rw [rollupBy, List.map_map]
    have hcomp : (RollupRow.dim ∘ rollupRow f rows) = id := funext fun p => rfl
    rw [hcomp, List.map_id]
  · intro g hg
    obtain ⟨p, -, rfl⟩ := List.mem_map.mp hg
    refine ⟨rfl, rfl, rfl, rfl, rfl, rfl, ?_, ?_, ?_⟩
    · intro hb
      simp only [rollupRow] at hb ⊢
      simp [pfFillRate, pandasDiv, hb]
    · intro hb hd
      simp only [rollupRow] at hb hd ⊢
      simp [pfFillRate, pandasDiv, hb, hd]
    · intro hb hd
      simp only [rollupRow] at hb hd ⊢
      simp [pfFillRate, pandasDiv, hb, hd]

theorem rollup_spec_witness :
    (page_metrics (addFlags exampleRows)).map RollupRow.dim = ["Homepage"] :=
  ((rollup_spec (fun r => r.row.page) (addFlags exampleRows)).1).trans (by decide)

/-- One date column normalized: `pd.to_datetime(df[col], dayfirst=True,
errors='coerce')` (src/2.py line 31), with the library parser abstracted as
`parse` — an entry that cannot be parsed is exactly one with
`parse e = none`, and it becomes the null marker instead of raising. -/
def normalizeColumn (parse : String → Option Int) (entries : List String) :
    List (Option Int) :=
  entries.map parse

/-- The warning emitted for one column: `if df[col].isna().any()` then a
single warning naming the column (src/2.py lines 34–35). -/
def columnWarning (parse : String → Option Int) (name : String)
    (entries : List String) : List String :=
  if (normalizeColumn parse entries).any Option.isNone then [name] else []

/-- The date-normalization loop over the columns present in the upload
(src/2.py lines 27–38): every column is processed, none aborts the loop;
returns the parsed columns and the emitted warnings in loop order. -/
def normalizeDates (parse : String → Option Int)
    (cols : List (String × List String)) :
    List (String × List (Option Int)) × List String :=
  match cols with
  | [] => ([], [])
  | c :: rest =>
    let r := normalizeDates parse rest
    ((c.1, normalizeColumn parse c.2) :: r.1,
     columnWarning parse c.1 c.2 ++ r.2)

/-- C9: for every date-parse function and every list of date columns, the
normalizer (i) processes every column to completion, mapping each entry
through the parser so unparseable entries become the null marker rather than
raising, and (ii) emits exactly one warning, naming the column, for each
column with at least one unparsed entry — and no others. -/
theorem date_normalization_spec (parse : String → Option Int)
    (cols : List (String × List String)) :
    (normalizeDates parse cols).1 = cols.map (fun c => (c.1, c.2.map parse)) ∧
    (normalizeDates parse cols).2 =
      (cols.filter (fun c => (c.2.map parse).any Option.isNone)).map Prod.fst := by
  induction cols with
  | nil => exact ⟨rfl, rfl⟩
  | cons c rest ih =>
    refine ⟨?_, ?_⟩
    · simp [normalizeDates, normalizeColumn, ih.1]
    · by_cases h : (c.2.map parse).any Option.isNone
      · simp [normalizeDates, columnWarning, normalizeColumn, h, ih.2,
          List.filter_cons]
      · simp [normalizeDates, columnWarning, normalizeColumn, h, ih.2,
          List.filter_cons]

/-- The nine required columns listed by the error path (src/2.py line 269). -/
def requiredColumns : List String :=
  ["Lead ID", "Line item ID", "Page", "Property", "Booked Impressions",
   "Delivered Impressions", "Goal Start Date", "Goal End Date", "Created Time"]

/-- The seven columns accessed by the flag/metric computation (src/2.py
lines 42–63) before anything is rendered; `Lead ID` and `Line item ID` are
first accessed only at line 88 (`df[show_columns]`), after the overall
fill-rate metric and the performance counters have already been rendered. -/
def flagStageColumns : List String :=
  ["Page", "Property", "Goal Start Date", "Goal End Date",
   "Booked Impressions", "Delivered Impressions", "Created Time"]

/-- An uploaded table: the set of columns present in the CSV header, and the
row data (fields of absent columns are never read by the pipeline model). -/
structure InputTable where
  cols : List String
  rows : List RawRow
deriving DecidableEq, Repr

/-- The units the script renders, in order. -/
inductive RenderItem where
  | dateWarning (col : String)
  | metricFillRate (q : ℚ)
  | metricsRow (total over under sla : Nat)
  | dataTable (t : List FlaggedRow)
  | downloadButton (t : List FlaggedRow)
  | charts (pages props : List RollupRow)
  | errorProcessing
  | writeExpectedColumns (cols : List String)
  | errorDateFormat
deriving DecidableEq, Repr

/-- The `except` block (src/2.py lines 266–274): a processing error, the full
expected-column list, and a second date-format error message. -/
def errorBlock : List RenderItem :=
  [.errorProcessing, .writeExpectedColumns requiredColumns, .errorDateFormat]

/-- Whether a row's parsed value for the named date column is the null
marker. -/
def dateFieldMissing (c : String) (r : RawRow) : Bool :=
  if c = "Goal Start Date" then r.goalStart.isNone
  else if c = "Goal End Date" then r.goalEnd.isNone
  else r.created.isNone

/-- The warnings of the date loop (src/2.py lines 27–35): one per PRESENT
date column having a null entry after coercion. -/
def dateWarnings (t : InputTable) : List RenderItem :=
  (["Goal Start Date", "Goal End Date", "Created Time"].filter
      (fun c => decide (c ∈ t.cols) && t.rows.any (dateFieldMissing c))).map
    RenderItem.dateWarning

/-- Count of `True` in a boolean column (`sum(df[flag])`). -/
def countTrue (l : List Bool) : Nat := l.countP id

/-- The overall fill-rate metric and the performance counters
(src/2.py lines 66–81), rendered BEFORE `Lead ID`/`Line item ID` are ever
accessed. -/
def metricsBlock (rows : List RawRow) : List RenderItem :=
  [RenderItem.metricFillRate (fill_rate rows),
   RenderItem.metricsRow rows.length
     (countTrue ((addFlags rows).map (fun r => r.overbooking)))
     (countTrue ((addFlags rows).map (fun r => r.underdelivery)))
     (countTrue ((addFlags rows).map (fun r => r.slaBreach)))]

/-- The script body (src/2.py lines 20–274) as the sequence of rendered
items: date warnings first; a `KeyError` on a column accessed at lines
42–63 aborts to the `except` block before any result is rendered; otherwise
the metrics render, and then a `KeyError` on `Lead ID`/`Line item ID` at
line 88 aborts to the `except` block; otherwise the table, the download
button and the charts render. -/
def runPipeline (t : InputTable) : List RenderItem :=
  dateWarnings t ++
    (if flagStageColumns.all (fun c => decide (c ∈ t.cols)) then
      metricsBlock t.rows ++
        (if "Lead ID" ∈ t.cols ∧ "Line item ID" ∈ t.cols then
          [RenderItem.dataTable (addFlags t.rows),
           RenderItem.downloadButton (addFlags t.rows),
           RenderItem.charts (page_metrics (addFlags t.rows))
             (property_metrics (addFlags t.rows))]
        else errorBlock)
    else errorBlock)

/-- An upload with every required column except `Lead ID`. -/
def missingLeadTable : InputTable :=
  { cols := ["Line item ID", "Page", "Property", "Booked Impressions",
             "Delivered Impressions", "Goal Start Date", "Goal End Date",
             "Created Time"],
    rows := exampleRows }

/-- C10 counterexample: with `Lead ID` absent (a required column), the run
still renders the overall fill-rate metric as its FIRST item — a partial
result — before reaching the error block, which moreover contains two error
messages, refuting "a single descriptive error ... and no partial results
are shown". -/
theorem pipeline_partial_results_counterexample :
    ("Lead ID" ∈ requiredColumns ∧ "Lead ID" ∉ missingLeadTable.cols) ∧
    (runPipeline missingLeadTable).head? =
      some (RenderItem.metricFillRate (fill_rate missingLeadTable.rows)) ∧
    RenderItem.errorProcessing ∈ runPipeline missingLeadTable ∧
    RenderItem.errorDateFormat ∈ runPipeline missingLeadTable := by
  refine ⟨by decide, rfl, ?_, ?_⟩ <;>
    · show _ ∈ runPipeline missingLeadTable
      rw [show runPipeline missingLeadTable =
        metricsBlock missingLeadTable.rows ++ errorBlock from rfl]
      simp [errorBlock]

/-- Render items that may legitimately precede the error block: date
warnings and the two metric displays of src/2.py lines 66–81. -/
def isPreErrorRender : RenderItem → Bool
  | .dateWarning _ => true
  | .metricFillRate _ => true
  | .metricsRow _ _ _ _ => true
  | _ => false

/-- C10 amended: whenever a required column is missing, the pipeline aborts
into the `except` block — which reports the full expected-column list
(together with a second, date-format error message) — and renders no flagged
table, download or charts; the only items that may precede the error block
are date warnings and, when the missing columns are only `Lead ID` /
`Line item ID`, the overall fill-rate metric and performance counters that
the script had already rendered before first accessing those columns. -/
theorem pipeline_missing_column_spec (t : InputTable)
    (h : ∃ c ∈ requiredColumns, c ∉ t.cols) :
    ∃ pre, runPipeline t = pre ++ errorBlock ∧
      ∀ i ∈ pre, isPreErrorRender i = true := by
  by_cases hf : flagStageColumns.all (fun c => decide (c ∈ t.cols)) = true
  · obtain ⟨c, hc, hnc⟩ := h
    have hmem : ∀ d ∈ flagStageColumns, d ∈ t.cols := by
      intro d hd
      exact of_decide_eq_true (List.all_eq_true.mp hf d hd)
    have hinner : ¬ ("Lead ID" ∈ t.cols ∧ "Line item ID" ∈ t.cols) := by
      fin_cases hc
      · exact fun hcontra => hnc hcontra.1
      · exact fun hcontra => hnc hcontra.2
      all_goals exact absurd (hmem _ (by decide)) hnc
    refine ⟨dateWarnings t ++ metricsBlock t.rows, ?_, ?_⟩
    · simp [runPipeline, hf, hinner, List.append_assoc]
    · intro i hi
      rcases List.mem_append.mp hi with hi | hi
      · obtain ⟨d, -, rfl⟩ := List.mem_map.mp hi
        rfl
      · simp only [metricsBlock, List.mem_cons, List.not_mem_nil, or_false] at hi
        rcases hi with rfl | rfl <;> rfl
  · refine ⟨dateWarnings t, ?_, ?_⟩
    · simp [runPipeline, hf]
    · intro i hi
      obtain ⟨d, -, rfl⟩ := List.mem_map.mp hi
      rfl

theorem pipeline_missing_column_spec_witness :
    ∃ pre, runPipeline missingLeadTable = pre ++ errorBlock ∧
      ∀ i ∈ pre, isPreErrorRender i = true :=
  pipeline_missing_column_spec missingLeadTable ⟨"Lead ID", by decide, by decide⟩
